import Mathlib

/-!
Shallow embedding of `src/device.c`, the V4L2 capture-device core of
uStreamer.  Kernel interaction (`ioctl`, `mmap`, `open`) is modelled by
explicit oracle inputs describing the kernel's responses; the mutable
`struct device_t` / `struct device_runtime_t` state is passed and returned
explicitly.  C status codes (`0` / `-1`) are modelled as `Int` results,
machine integers as `Nat`/`Int`.
-/

/-- Builds a fourcc code, as `v4l2_fourcc(a,b,c,d)` in `linux/videodev2.h`. -/
def v4l2_fourcc (a b c d : Nat) : Nat := a + b * 256 + c * 65536 + d * 16777216

/-- fourcc of packed YUV 4:2:2, order YUYV. -/
def V4L2_PIX_FMT_YUYV : Nat := v4l2_fourcc 89 85 89 86

/-- fourcc of packed YUV 4:2:2, order UYVY. -/
def V4L2_PIX_FMT_UYVY : Nat := v4l2_fourcc 85 89 86 89

/-- fourcc of RGB565 (code RGBP). -/
def V4L2_PIX_FMT_RGB565 : Nat := v4l2_fourcc 82 71 66 80

/-- fourcc of RGB24 (code RGB3). -/
def V4L2_PIX_FMT_RGB24 : Nat := v4l2_fourcc 82 71 66 51

/-- fourcc of motion JPEG (code MJPG). -/
def V4L2_PIX_FMT_MJPEG : Nat := v4l2_fourcc 77 74 80 71

/-- fourcc of JPEG (code JPEG). -/
def V4L2_PIX_FMT_JPEG : Nat := v4l2_fourcc 74 80 69 71

/-- `V4L2_STD_UNKNOWN` from `linux/videodev2.h`. -/
def V4L2_STD_UNKNOWN : Nat := 0

/-- `V4L2_EVENT_EOS` from `linux/videodev2.h`. -/
def V4L2_EVENT_EOS : Nat := 2

/-- `V4L2_EVENT_SOURCE_CHANGE` from `linux/videodev2.h`. -/
def V4L2_EVENT_SOURCE_CHANGE : Nat := 5

/-- The `_FORMATS` table of `device.c`: recognized pixel format names. -/
def _FORMATS : List (String × Nat) :=
  [("YUYV", V4L2_PIX_FMT_YUYV),
   ("UYVY", V4L2_PIX_FMT_UYVY),
   ("RGB565", V4L2_PIX_FMT_RGB565),
   ("RGB24", V4L2_PIX_FMT_RGB24),
   ("JPEG", V4L2_PIX_FMT_MJPEG),
   ("JPEG", V4L2_PIX_FMT_JPEG)]

/-- `_format_to_string_nullable`: first table entry matching the format,
`none` when the fourcc is not in the `_FORMATS` table. -/
def _format_to_string_nullable (format : Nat) : Option String :=
  (_FORMATS.find? (fun p => p.2 == format)).map (fun p => p.1)

/-- The buffer-strategy enum actually dispatched on by `_device_open_io_method`
(`V4L2_MEMORY_MMAP` / `V4L2_MEMORY_USERPTR`). -/
inductive IoMethod where
  | mmap : IoMethod
  | userptr : IoMethod
deriving DecidableEq, Repr

/-- The part of `struct v4l2_buffer` the code reads back from `VIDIOC_DQBUF`
and stores for the later `VIDIOC_QBUF`. -/
structure V4l2Buffer where
  index : Nat
  bytesused : Nat
deriving DecidableEq, Repr

instance : Inhabited V4l2Buffer := ⟨⟨0, 0⟩⟩

/-- One slot of `run->hw_buffers`: `struct hw_buffer_t`. -/
structure HwBufferState where
  grabbed : Bool
  used : Nat
  buf_info : Option V4l2Buffer
  allocated : Nat
deriving DecidableEq, Repr

instance : Inhabited HwBufferState := ⟨⟨false, 0, none, 0⟩⟩

/-- One slot of `run->pictures`; only the `grab_ts` field is touched here. -/
structure PictureState where
  grab_ts : Nat
deriving DecidableEq, Repr

instance : Inhabited PictureState := ⟨⟨0⟩⟩

/-- `struct device_runtime_t`: state derived at open time. -/
structure DeviceRun where
  fd : Int
  width : Nat
  height : Nat
  format : Nat
  hw_fps : Nat
  raw_size : Nat
  n_buffers : Nat
  hw_buffers : List HwBufferState
  pictures : List PictureState
  n_workers : Nat
  capturing : Bool
deriving DecidableEq, Repr

instance : Inhabited DeviceRun := ⟨⟨-1, 0, 0, 0, 0, 0, 0, [], [], 0, false⟩⟩

/-- `struct device_t`: the configuration fields read during open, the
`standard` field (which `VIDIOC_QUERYSTD` may overwrite), and the runtime. -/
structure Device where
  path : String
  width : Nat
  height : Nat
  format : Nat
  standard : Nat
  dv_timings : Bool
  n_buffers : Nat
  n_workers : Nat
  desired_fps : Nat
  input : Nat
  io_method : IoMethod
  run : DeviceRun
deriving DecidableEq, Repr

/-- `device_grab_buffer`.  `dqbuf` is the kernel's `VIDIOC_DQBUF` response
(`none` = the ioctl failed), `now` is `get_now_monotonic()`.  Returns the C
return value and the updated device. -/
def device_grab_buffer (dev : Device) (dqbuf : Option V4l2Buffer) (now : Nat) :
    Int × Device :=
  match dqbuf with
  | none => (-1, dev)
  | some bi =>
    if bi.index ≥ dev.run.n_buffers then
      (-1, dev)
    else
      let slot := dev.run.hw_buffers.getD bi.index default
      if slot.grabbed then
        (-1, dev)
      else
        let slot1 : HwBufferState :=
          { slot with grabbed := true, used := bi.bytesused, buf_info := some bi }
        let pic := dev.run.pictures.getD bi.index default
        let run1 :=
          { dev.run with
            hw_buffers := dev.run.hw_buffers.set bi.index slot1,
            pictures := dev.run.pictures.set bi.index { pic with grab_ts := now } }
        (Int.ofNat bi.index, { dev with run := run1 })

/-- `device_release_buffer`.  `qbuf_ok` is the outcome of the
`VIDIOC_QBUF` ioctl on the slot's stored descriptor. -/
def device_release_buffer (dev : Device) (index : Nat) (qbuf_ok : Bool) :
    Int × Device :=
  if qbuf_ok then
    let slot := dev.run.hw_buffers.getD index default
    let slot1 : HwBufferState := { slot with grabbed := false, used := 0 }
    (0, { dev with run :=
      { dev.run with hw_buffers := dev.run.hw_buffers.set index slot1 } })
  else
    (-1, dev)

/-- `device_switch_capturing`.  `ioctl_ok` is the outcome of the
`VIDIOC_STREAMON` / `VIDIOC_STREAMOFF` ioctl. -/
def device_switch_capturing (dev : Device) (enable : Bool) (ioctl_ok : Bool) :
    Int × Device :=
  if enable ≠ dev.run.capturing then
    if ¬ioctl_ok ∧ enable then
      (-1, dev)
    else
      (0, { dev with run := { dev.run with capturing := enable } })
  else
    (0, dev)

/-- `device_consume_event`.  `dqevent` is the `VIDIOC_DQEVENT` response:
`none` = the ioctl failed, `some t` = an event of type `t` was dequeued. -/
def device_consume_event (dqevent : Option Nat) : Int :=
  match dqevent with
  | some t => if t = V4L2_EVENT_SOURCE_CHANGE then -1 else 0
  | none => 0

/-- Oracle for the kernel's responses during the `device_open` sequence.
Each field gives the outcome of one system call the code issues. -/
structure Oracle where
  open_fd : Int
  querycap_ok : Bool
  cap_capture : Bool
  cap_streaming : Bool
  s_input_ok : Bool
  s_std_ok : Bool
  query_dv_ok : Bool
  dv_width : Nat
  dv_height : Nat
  s_dv_ok : Bool
  querystd_ok : Bool
  querystd_value : Nat
  s_std2_ok : Bool
  subscribe_ok : Bool
  s_fmt_ok : Bool
  fmt_width : Nat
  fmt_height : Nat
  fmt_pixelformat : Nat
  fmt_sizeimage : Nat
  g_parm_ok : Bool
  cap_timeperframe : Bool
  s_parm_ok : Bool
  parm_numerator : Nat
  parm_denominator : Nat
  reqbufs_ok : Bool
  reqbufs_count : Nat
  querybuf_ok : Nat → Bool
  buf_length : Nat → Nat
  mmap_ok : Nat → Bool
  page_size : Nat
  qbuf_ok : Nat → Bool

/-- The validation condition of `_device_apply_resolution`:
`width == 0 || width > VIDEO_MAX_WIDTH || height == 0 || height > VIDEO_MAX_HEIGHT`.
The `VIDEO_MAX_*` ceiling constants live in `device.h` and are passed here
as the parameters `maxW`/`maxH`. -/
def resolution_forbidden (maxW maxH width height : Nat) : Bool :=
  width == 0 || decide (width > maxW) || height == 0 || decide (height > maxH)

/-- `_device_apply_resolution`: validates the pair against the hard ceiling
and assigns `run->width` / `run->height` only when validation passes. -/
def _device_apply_resolution (maxW maxH : Nat) (dev : Device)
    (width height : Nat) : Int × Device :=
  if resolution_forbidden maxW maxH width height then
    (-1, dev)
  else
    (0, { dev with run := { dev.run with width := width, height := height } })

/-- `_device_open_check_cap`: capability query, input-channel selection and
optional standard selection.  Mutates no modelled state. -/
def _device_open_check_cap (o : Oracle) (dev : Device) : Int × Device :=
  if ¬o.querycap_ok then (-1, dev)
  else if ¬o.cap_capture then (-1, dev)
  else if ¬o.cap_streaming then (-1, dev)
  else if ¬o.s_input_ok then (-1, dev)
  else if dev.standard ≠ V4L2_STD_UNKNOWN then
    if ¬o.s_std_ok then (-1, dev) else (0, dev)
  else (0, dev)

/-- `_device_apply_dv_timings`: query current DV timings; on success apply
them and derive the resolution from the timing geometry; otherwise fall
back to querying and applying a legacy analog standard. -/
def _device_apply_dv_timings (maxW maxH : Nat) (o : Oracle) (dev : Device) :
    Int × Device :=
  if o.query_dv_ok then
    if ¬o.s_dv_ok then (-1, dev)
    else _device_apply_resolution maxW maxH dev o.dv_width o.dv_height
  else if o.querystd_ok then
    let dev1 := { dev with standard := o.querystd_value }
    if ¬o.s_std2_ok then (-1, dev1) else (0, dev1)
  else (0, dev)

/-- `_device_open_dv_timings`: seeds the runtime resolution from the desired
one (the return value of `_device_apply_resolution` is discarded here, as in
the source), then, when DV timings are enabled, applies them and subscribes
to the source-change event. -/
def _device_open_dv_timings (maxW maxH : Nat) (o : Oracle) (dev : Device) :
    Int × Device :=
  let dev0 := (_device_apply_resolution maxW maxH dev dev.width dev.height).2
  if dev0.dv_timings then
    let p := _device_apply_dv_timings maxW maxH o dev0
    if p.1 < 0 then (-1, p.2)
    else if ¬o.subscribe_ok then (-1, p.2)
    else (0, p.2)
  else (0, dev0)

/-- `_device_open_format`: propose the desired format, validate the granted
resolution, and accept a different granted pixel format only when it is in
the `_FORMATS` table; record the granted format and raw frame size. -/
def _device_open_format (maxW maxH : Nat) (o : Oracle) (dev : Device) :
    Int × Device :=
  if ¬o.s_fmt_ok then (-1, dev)
  else
    let p := _device_apply_resolution maxW maxH dev o.fmt_width o.fmt_height
    if p.1 < 0 then (-1, p.2)
    else
      let dev1 := p.2
      if o.fmt_pixelformat ≠ dev1.format ∧
          _format_to_string_nullable o.fmt_pixelformat = none then
        (-1, dev1)
      else
        (0, { dev1 with run :=
          { dev1.run with format := o.fmt_pixelformat,
                          raw_size := o.fmt_sizeimage } })

/-- `_device_open_hw_fps`: best-effort frame-rate negotiation; only ever
writes `run->hw_fps`, never fails. -/
def _device_open_hw_fps (o : Oracle) (dev : Device) : Device :=
  let dev0 := { dev with run := { dev.run with hw_fps := 0 } }
  if ¬o.g_parm_ok then dev0
  else if ¬o.cap_timeperframe then dev0
  else if ¬o.s_parm_ok then dev0
  else if o.parm_numerator ≠ 1 then dev0
  else if o.parm_denominator = 0 then dev0
  else { dev0 with run := { dev0.run with hw_fps := o.parm_denominator } }

/-- The buffer-allocation loop of `_device_open_io_method_mmap`:
`for (run->n_buffers = 0; run->n_buffers < req.count; ++run->n_buffers)`,
querying and mapping each buffer; failure aborts with the partial pool.
`i` is the current index, `rem` the remaining iteration count. -/
def _mmap_loop (o : Oracle) (i : Nat) (acc : List HwBufferState) :
    Nat → Int × Nat × List HwBufferState
  | 0 => (0, i, acc)
  | rem + 1 =>
    if ¬o.querybuf_ok i then (-1, i, acc)
    else if ¬o.mmap_ok i then (-1, i, acc)
    else
      _mmap_loop o (i + 1)
        (acc ++ [{ grabbed := false, used := 0, buf_info := none,
                   allocated := o.buf_length i }]) rem

/-- `_device_open_io_method_mmap`: request kernel-mapped buffers; fewer
than 1 granted is fatal; map each granted buffer. -/
def _device_open_io_method_mmap (o : Oracle) (dev : Device) : Int × Device :=
  if ¬o.reqbufs_ok then (-1, dev)
  else if o.reqbufs_count < 1 then (-1, dev)
  else
    let t := _mmap_loop o 0 [] o.reqbufs_count
    (t.1, { dev with run :=
      { dev.run with n_buffers := t.2.1, hw_buffers := t.2.2 } })

/-- `align_size` from `tools.h` (missing from `src/`), for a power-of-two
alignment: round `size` up to a multiple of `to`. -/
def align_size (size a : Nat) : Nat := ((size + a - 1) / a) * a

/-- `_device_open_io_method_userptr`: request user-pointer buffers; fewer
than 1 granted is fatal; allocate one page-aligned zeroed region per buffer
(the `aligned_alloc` is asserted to succeed in the source). -/
def _device_open_io_method_userptr (o : Oracle) (dev : Device) : Int × Device :=
  if ¬o.reqbufs_ok then (-1, dev)
  else if o.reqbufs_count < 1 then (-1, dev)
  else
    let buf_size := align_size dev.run.raw_size o.page_size
    let bufs := List.replicate o.reqbufs_count
      { grabbed := false, used := 0, buf_info := none, allocated := buf_size }
    (0, { dev with run :=
      { dev.run with n_buffers := o.reqbufs_count, hw_buffers := bufs } })

/-- `_device_open_io_method`: dispatch on the configured buffer strategy. -/
def _device_open_io_method (o : Oracle) (dev : Device) : Int × Device :=
  match dev.io_method with
  | IoMethod.mmap => _device_open_io_method_mmap o dev
  | IoMethod.userptr => _device_open_io_method_userptr o dev

/-- `_device_open_queue_buffers`: enqueue every allocated buffer; the first
`VIDIOC_QBUF` failure aborts with `-1`.  No modelled state is mutated. -/
def _device_open_queue_buffers (o : Oracle) (dev : Device) : Int :=
  if (List.range dev.run.n_buffers).all (fun i => o.qbuf_ok i) then 0 else -1

/-- `_device_open_alloc_picbufs`: one fresh picture buffer per hardware
buffer (`picture_init` zero-initializes `grab_ts`). -/
def _device_open_alloc_picbufs (dev : Device) : Device :=
  { dev with run :=
    { dev.run with pictures := List.replicate dev.run.n_buffers { grab_ts := 0 } } }

/-- `device_close`: teardown, safe on a partially constructed runtime. -/
def device_close (dev : Device) : Device :=
  { dev with run :=
    { dev.run with n_workers := 0, pictures := [], n_buffers := 0,
                   hw_buffers := [], fd := -1 } }

/-- `device_open`: the ordered negotiation pipeline; the first failing stage
short-circuits the rest and unwinds through `device_close`.
`_device_apply_controls` only issues ioctls and mutates no modelled state,
so it is omitted here. -/
def device_open (maxW maxH : Nat) (o : Oracle) (dev : Device) : Int × Device :=
  let devA := { dev with run := { dev.run with fd := o.open_fd } }
  if devA.run.fd < 0 then (-1, device_close devA) else
  let p1 := _device_open_check_cap o devA
  if p1.1 < 0 then (-1, device_close p1.2) else
  let p2 := _device_open_dv_timings maxW maxH o p1.2
  if p2.1 < 0 then (-1, device_close p2.2) else
  let p3 := _device_open_format maxW maxH o p2.2
  if p3.1 < 0 then (-1, device_close p3.2) else
  let d4 := _device_open_hw_fps o p3.2
  let p5 := _device_open_io_method o d4
  if p5.1 < 0 then (-1, device_close p5.2) else
  if _device_open_queue_buffers o p5.2 < 0 then (-1, device_close p5.2) else
  let d6 := _device_open_alloc_picbufs p5.2
  (0, { d6 with run :=
    { d6.run with n_workers := min d6.run.n_buffers d6.n_workers } })

/-- C's `%` on two `int` operands: truncated remainder, undefined (`none`)
when the divisor is zero. -/
def ctmod (a b : Int) : Option Int :=
  if b = 0 then none else some (Int.tmod a b)

/-- The part of `struct v4l2_queryctrl` read by `_device_set_control`
(all four fields are `__s32`). -/
structure V4l2Queryctrl where
  minimum : Int
  maximum : Int
  step : Int
  default_value : Int
deriving DecidableEq, Repr

/-- The externally visible action of `_device_set_control`: either the
value is rejected by validation (`skip`, device left unchanged) or the
`VIDIOC_S_CTRL` setter is invoked with the value (`write`). -/
inductive ControlAction where
  | skip : ControlAction
  | write : Int → ControlAction
deriving DecidableEq, Repr

/-- `_device_set_control`: the validation
`value < query->minimum || value > query->maximum || value % query->step != 0`
(with C's short-circuit order, so `%` is reached only for in-range values)
followed by the device write.  `none` models the undefined division by a
zero `step`. -/
def _device_set_control (q : V4l2Queryctrl) (value : Int) :
    Option ControlAction :=
  if value < q.minimum then some ControlAction.skip
  else if value > q.maximum then some ControlAction.skip
  else
    match ctmod value q.step with
    | none => none
    | some m =>
      if m ≠ 0 then some ControlAction.skip
      else some (ControlAction.write value)

/-- A concrete device configuration, used to evaluate the theorems below
on explicit inputs. -/
def devBase : Device :=
  { path := "/dev/video0", width := 640, height := 480,
    format := V4L2_PIX_FMT_YUYV, standard := 0, dv_timings := false,
    n_buffers := 3, n_workers := 4, desired_fps := 0, input := 0,
    io_method := IoMethod.mmap,
    run := { fd := -1, width := 0, height := 0, format := 0, hw_fps := 0,
             raw_size := 0, n_buffers := 0, hw_buffers := [], pictures := [],
             n_workers := 0, capturing := false } }

/-- A concrete all-succeeding kernel oracle that grants a 640x480 YUYV
format and 2 buffers. -/
def okOracle : Oracle :=
  { open_fd := 3, querycap_ok := true, cap_capture := true,
    cap_streaming := true, s_input_ok := true, s_std_ok := true,
    query_dv_ok := false, dv_width := 0, dv_height := 0, s_dv_ok := false,
    querystd_ok := false, querystd_value := 0, s_std2_ok := false,
    subscribe_ok := true, s_fmt_ok := true, fmt_width := 640,
    fmt_height := 480, fmt_pixelformat := V4L2_PIX_FMT_YUYV,
    fmt_sizeimage := 614400, g_parm_ok := false, cap_timeperframe := false,
    s_parm_ok := false, parm_numerator := 0, parm_denominator := 0,
    reqbufs_ok := true, reqbufs_count := 2, querybuf_ok := fun _ => true,
    buf_length := fun _ => 1000, mmap_ok := fun _ => true, page_size := 4096,
    qbuf_ok := fun _ => true }

/-- `devBase` with an open two-slot pool: slot 0 free, slot 1 grabbed. -/
def devPool : Device :=
  { devBase with run :=
    { devBase.run with
        n_buffers := 2,
        hw_buffers := [⟨false, 0, none, 4096⟩, ⟨true, 100, some ⟨1, 100⟩, 4096⟩],
        pictures := [⟨0⟩, ⟨0⟩] } }

/-- `devBase` with a desired width of 0, a forbidden resolution. -/
def devZeroW : Device := { devBase with width := 0 }

/-- `okOracle` granting motion-JPEG instead of the requested YUYV. -/
def jpegOracle : Oracle := { okOracle with fmt_pixelformat := V4L2_PIX_FMT_MJPEG }

/-- `okOracle` granting an unrecognized fourcc (0). -/
def badFourccOracle : Oracle := { okOracle with fmt_pixelformat := 0 }

/-- `okOracle` granting a forbidden negotiated width of 0. -/
def badFmtResOracle : Oracle := { okOracle with fmt_width := 0 }

/-! ### Helper lemmas -/

theorem getD_set_self {α : Type _} (l : List α) (i : Nat) (a d : α)
    (h : i < l.length) : (l.set i a).getD i d = a := by
  rw [List.getD_eq_getElem?_getD, List.getElem?_set_self h]
  rfl

/-- `_device_open_check_cap` never mutates the modelled device state. -/
theorem check_cap_state (o : Oracle) (dev : Device) :
    (_device_open_check_cap o dev).2 = dev := by
  unfold _device_open_check_cap
  repeat' split
  all_goals rfl

theorem apply_resolution_format (maxW maxH : Nat) (dev : Device) (w h : Nat) :
    (_device_apply_resolution maxW maxH dev w h).2.format = dev.format := by
  unfold _device_apply_resolution
  split <;> rfl

theorem apply_resolution_nworkers (maxW maxH : Nat) (dev : Device) (w h : Nat) :
    (_device_apply_resolution maxW maxH dev w h).2.n_workers = dev.n_workers := by
  unfold _device_apply_resolution
  split <;> rfl

theorem apply_resolution_dv (maxW maxH : Nat) (dev : Device) (w h : Nat) :
    (_device_apply_resolution maxW maxH dev w h).2.dv_timings = dev.dv_timings := by
  unfold _device_apply_resolution
  split <;> rfl

theorem apply_dv_timings_format (maxW maxH : Nat) (o : Oracle) (dev : Device) :
    (_device_apply_dv_timings maxW maxH o dev).2.format = dev.format := by
  unfold _device_apply_dv_timings
  split
  · split
    · rfl
    · exact apply_resolution_format maxW maxH dev o.dv_width o.dv_height
  · split
    · split <;> rfl
    · rfl

theorem apply_dv_timings_nworkers (maxW maxH : Nat) (o : Oracle) (dev : Device) :
    (_device_apply_dv_timings maxW maxH o dev).2.n_workers = dev.n_workers := by
  unfold _device_apply_dv_timings
  split
  · split
    · rfl
    · exact apply_resolution_nworkers maxW maxH dev o.dv_width o.dv_height
  · split
    · split <;> rfl
    · rfl

theorem dv_timings_format (maxW maxH : Nat) (o : Oracle) (dev : Device) :
    (_device_open_dv_timings maxW maxH o dev).2.format = dev.format := by
  simp only [_device_open_dv_timings]
  repeat' split
  all_goals simp [apply_dv_timings_format, apply_resolution_format]

theorem dv_timings_nworkers (maxW maxH : Nat) (o : Oracle) (dev : Device) :
    (_device_open_dv_timings maxW maxH o dev).2.n_workers = dev.n_workers := by
  simp only [_device_open_dv_timings]
  repeat' split
  all_goals simp [apply_dv_timings_nworkers, apply_resolution_nworkers]

theorem open_format_nworkers (maxW maxH : Nat) (o : Oracle) (dev : Device) :
    (_device_open_format maxW maxH o dev).2.n_workers = dev.n_workers := by
  simp only [_device_open_format]
  repeat' split
  all_goals simp [apply_resolution_nworkers]

theorem hw_fps_nworkers (o : Oracle) (dev : Device) :
    (_device_open_hw_fps o dev).n_workers = dev.n_workers := by
  unfold _device_open_hw_fps
  repeat' split
  all_goals rfl

theorem hw_fps_io_method (o : Oracle) (dev : Device) :
    (_device_open_hw_fps o dev).io_method = dev.io_method := by
  unfold _device_open_hw_fps
  repeat' split
  all_goals rfl

/-- A successful mmap allocation loop maps exactly the granted count. -/
theorem mmap_loop_success_count (o : Oracle) :
    ∀ (rem i : Nat) (acc : List HwBufferState),
      ¬((_mmap_loop o i acc rem).1 < 0) →
      (_mmap_loop o i acc rem).2.1 = i + rem := by
  intro rem
  induction rem with
  | zero => intro i acc _; rfl
  | succ n ih =>
    intro i acc h
    simp only [_mmap_loop] at h ⊢
    by_cases h1 : ¬o.querybuf_ok i = true
    · rw [if_pos h1] at h; simp at h
    · rw [if_neg h1] at h ⊢
      by_cases h2 : ¬o.mmap_ok i = true
      · rw [if_pos h2] at h; simp at h
      · rw [if_neg h2] at h ⊢
        rw [ih (i + 1) _ h]
        omega

theorem io_mmap_success (o : Oracle) (dev : Device)
    (h : ¬((_device_open_io_method_mmap o dev).1 < 0)) :
    (_device_open_io_method_mmap o dev).2.run.n_buffers = o.reqbufs_count ∧
    1 ≤ o.reqbufs_count ∧
    (_device_open_io_method_mmap o dev).2.n_workers = dev.n_workers := by
  simp only [_device_open_io_method_mmap] at h ⊢
  by_cases h1 : ¬o.reqbufs_ok = true
  · rw [if_pos h1] at h; simp at h
  · rw [if_neg h1] at h ⊢
    by_cases h2 : o.reqbufs_count < 1
    · rw [if_pos h2] at h; simp at h
    · rw [if_neg h2] at h ⊢
      refine ⟨?_, by omega, rfl⟩
      have := mmap_loop_success_count o o.reqbufs_count 0 [] (by exact h)
      simpa using this

theorem io_userptr_success (o : Oracle) (dev : Device)
    (h : ¬((_device_open_io_method_userptr o dev).1 < 0)) :
    (_device_open_io_method_userptr o dev).2.run.n_buffers = o.reqbufs_count ∧
    1 ≤ o.reqbufs_count ∧
    (_device_open_io_method_userptr o dev).2.n_workers = dev.n_workers := by
  simp only [_device_open_io_method_userptr] at h ⊢
  by_cases h1 : ¬o.reqbufs_ok = true
  · rw [if_pos h1] at h; simp at h
  · rw [if_neg h1] at h ⊢
    by_cases h2 : o.reqbufs_count < 1
    · rw [if_pos h2] at h; simp at h
    · rw [if_neg h2] at h ⊢
      exact ⟨rfl, by omega, rfl⟩

theorem io_method_success (o : Oracle) (dev : Device)
    (h : ¬((_device_open_io_method o dev).1 < 0)) :
    (_device_open_io_method o dev).2.run.n_buffers = o.reqbufs_count ∧
    1 ≤ o.reqbufs_count ∧
    (_device_open_io_method o dev).2.n_workers = dev.n_workers := by
  unfold _device_open_io_method at h ⊢
  cases hio : dev.io_method with
  | mmap => rw [hio] at h; exact io_mmap_success o dev h
  | userptr => rw [hio] at h; exact io_userptr_success o dev h

/-- Under an unrecognized granted fourcc different from the requested one,
format negotiation fails for every device state with that request. -/
theorem format_stage_fails_nullable (maxW maxH : Nat) (o : Oracle) (d : Device)
    (hdiff : o.fmt_pixelformat ≠ d.format)
    (hnone : _format_to_string_nullable o.fmt_pixelformat = none) :
    (_device_open_format maxW maxH o d).1 = -1 := by
  simp only [_device_open_format]
  split
  · rfl
  · split
    · rfl
    · rw [if_pos ⟨by rw [apply_resolution_format]; exact hdiff, hnone⟩]

theorem format_stage_fails_resolution (maxW maxH : Nat) (o : Oracle) (d : Device)
    (hfmt : o.s_fmt_ok = true)
    (hbad : resolution_forbidden maxW maxH o.fmt_width o.fmt_height = true) :
    (_device_open_format maxW maxH o d).1 = -1 := by
  simp only [_device_open_format]
  rw [if_neg (by simp [hfmt])]
  have hr : _device_apply_resolution maxW maxH d o.fmt_width o.fmt_height
      = (-1, d) := by
    simp [_device_apply_resolution, hbad]
  rw [hr, if_pos (by norm_num)]

theorem dv_stage_fails (maxW maxH : Nat) (o : Oracle) (d : Device)
    (hdv : d.dv_timings = true) (hq : o.query_dv_ok = true)
    (hs : o.s_dv_ok = true)
    (hbad : resolution_forbidden maxW maxH o.dv_width o.dv_height = true) :
    (_device_open_dv_timings maxW maxH o d).1 = -1 := by
  simp only [_device_open_dv_timings]
  rw [if_pos (by rw [apply_resolution_dv]; exact hdv)]
  have happ : (_device_apply_dv_timings maxW maxH o
      (_device_apply_resolution maxW maxH d d.width d.height).2).1 = -1 := by
    simp only [_device_apply_dv_timings]
    rw [if_pos hq, if_neg (by simp [hs])]
    simp [_device_apply_resolution, hbad]
  rw [if_pos (by rw [happ]; norm_num)]

/-- If the DV-timings stage fails for every device with the configured
`dv_timings` flag, the whole open sequence fails. -/
theorem open_fails_at_dv (maxW maxH : Nat) (o : Oracle) (dev : Device)
    (h : ∀ d : Device, d.dv_timings = dev.dv_timings →
      (_device_open_dv_timings maxW maxH o d).1 = -1) :
    (device_open maxW maxH o dev).1 = -1 := by
  simp only [device_open]
  split
  · rfl
  · split
    · rfl
    · split
      · rfl
      · rename_i h3
        exact absurd (by rw [h _ (by rw [check_cap_state])]; norm_num) h3

/-- If format negotiation fails for every device with the configured
format, the whole open sequence fails. -/
theorem open_fails_at_format (maxW maxH : Nat) (o : Oracle) (dev : Device)
    (h : ∀ d : Device, d.format = dev.format →
      (_device_open_format maxW maxH o d).1 = -1) :
    (device_open maxW maxH o dev).1 = -1 := by
  simp only [device_open]
  split
  · rfl
  · split
    · rfl
    · split
      · rfl
      · split
        · rfl
        · rename_i h4
          exact absurd
            (by rw [h _ (by rw [dv_timings_format, check_cap_state])]; norm_num)
            h4

/-- `device_open` returns either success or `-1`. -/
theorem device_open_result (maxW maxH : Nat) (o : Oracle) (dev : Device) :
    (device_open maxW maxH o dev).1 = 0 ∨ (device_open maxW maxH o dev).1 = -1 := by
  simp only [device_open]
  repeat' split
  all_goals simp

/-- A successful `device_open` grants at least one buffer, records the
granted count, and clamps the worker count to `min granted configured`. -/
theorem device_open_success_shape (maxW maxH : Nat) (o : Oracle) (dev : Device)
    (h : (device_open maxW maxH o dev).1 = 0) :
    1 ≤ o.reqbufs_count ∧
    (device_open maxW maxH o dev).2.run.n_buffers = o.reqbufs_count ∧
    (device_open maxW maxH o dev).2.run.n_workers
      = min o.reqbufs_count dev.n_workers := by
  simp only [device_open] at h ⊢
  split at h
  · simp at h
  · rename_i hc1
    rw [if_neg hc1]
    split at h
    · simp at h
    · rename_i hc2
      rw [if_neg hc2]
      split at h
      · simp at h
      · rename_i hc3
        rw [if_neg hc3]
        split at h
        · simp at h
        · rename_i hc4
          rw [if_neg hc4]
          split at h
          · simp at h
          · rename_i hc5
            rw [if_neg hc5]
            split at h
            · simp at h
            · rename_i hc6
              rw [if_neg hc6]
              obtain ⟨hnb, hge, hnw⟩ := io_method_success o _ hc5
              refine ⟨hge, ?_, ?_⟩
              · simp only [_device_open_alloc_picbufs]
                rw [hnb]
              · simp only [_device_open_alloc_picbufs]
                rw [hnb, hnw, hw_fps_nworkers, open_format_nworkers,
                    dv_timings_nworkers]
                simp [check_cap_state]

/-! ### Claim theorems -/

/-- C1: `device_grab_buffer` fails with `-1` when the kernel dequeue fails,
when the dequeued index is out of the pool's bounds, or when that slot's
exclusive-access flag is already set — the double-grab case mutating no
state; on success it sets the grabbed flag, records bytes-used, stores the
kernel buffer descriptor, stamps the matching picture buffer's monotonic
grab timestamp, and returns the dequeued index. -/
theorem grab_buffer_contract (dev : Device) (dqbuf : Option V4l2Buffer)
    (now : Nat)
    (hbuf : dev.run.hw_buffers.length = dev.run.n_buffers)
    (hpic : dev.run.pictures.length = dev.run.n_buffers) :
    (dqbuf = none → device_grab_buffer dev dqbuf now = (-1, dev)) ∧
    (∀ bi, dqbuf = some bi → dev.run.n_buffers ≤ bi.index →
      device_grab_buffer dev dqbuf now = (-1, dev)) ∧
    (∀ bi, dqbuf = some bi → bi.index < dev.run.n_buffers →
      (dev.run.hw_buffers.getD bi.index default).grabbed = true →
      device_grab_buffer dev dqbuf now = (-1, dev)) ∧
    (∀ bi, dqbuf = some bi → bi.index < dev.run.n_buffers →
      (dev.run.hw_buffers.getD bi.index default).grabbed = false →
      (device_grab_buffer dev dqbuf now).1 = Int.ofNat bi.index ∧
      (device_grab_buffer dev dqbuf now).2.run.hw_buffers.getD bi.index default
        = { grabbed := true, used := bi.bytesused, buf_info := some bi,
            allocated := (dev.run.hw_buffers.getD bi.index default).allocated } ∧
      ((device_grab_buffer dev dqbuf now).2.run.pictures.getD
          bi.index default).grab_ts = now) := by
  refine ⟨?_, ?_, ?_, ?_⟩
  · rintro rfl; rfl
  · rintro bi rfl hge
    simp only [device_grab_buffer]
    rw [if_pos hge]
  · rintro bi rfl hlt hg
    simp only [device_grab_buffer]
    rw [if_neg (Nat.not_le.mpr hlt), if_pos hg]
  · rintro bi rfl hlt hg
    simp only [device_grab_buffer]
    rw [if_neg (Nat.not_le.mpr hlt),
        if_neg (by rw [hg]; exact Bool.false_ne_true)]
    refine ⟨rfl, ?_, ?_⟩
    · exact getD_set_self _ _ _ _ (by omega)
    · rw [getD_set_self _ _ _ _ (by omega)]

/-- C2: `device_release_buffer` on kernel re-enqueue failure returns an
error leaving the slot untouched; on success it clears the grabbed flag and
resets bytes-used, succeeding even for a non-grabbed slot, with idempotent
effect. -/
theorem release_buffer_contract (dev : Device) (index : Nat)
    (hidx : index < dev.run.hw_buffers.length) :
    (device_release_buffer dev index false = (-1, dev)) ∧
    ((device_release_buffer dev index true).1 = 0) ∧
    (((device_release_buffer dev index true).2.run.hw_buffers.getD
        index default).grabbed = false) ∧
    (((device_release_buffer dev index true).2.run.hw_buffers.getD
        index default).used = 0) ∧
    ((device_release_buffer (device_release_buffer dev index true).2
        index true).2 = (device_release_buffer dev index true).2) := by
  refine ⟨rfl, rfl, ?_, ?_, ?_⟩
  · simp only [device_release_buffer, if_true]
    rw [getD_set_self _ _ _ _ hidx]
  · simp only [device_release_buffer, if_true]
    rw [getD_set_self _ _ _ _ hidx]
  · simp only [device_release_buffer, if_true]
    rw [List.set_set, getD_set_self _ _ _ _ hidx]

/-- C6: `device_switch_capturing` with the current state is a no-op
returning success; enabling moves to STREAMING only when stream-on
succeeds (failure keeps STOPPED and returns an error); disabling always
ends STOPPED and returns success even when stream-off fails. -/
theorem switch_capturing_contract (dev : Device) (enable ok : Bool) :
    (enable = dev.run.capturing →
      device_switch_capturing dev enable ok = (0, dev)) ∧
    (dev.run.capturing = false →
      device_switch_capturing dev true false = (-1, dev)) ∧
    (dev.run.capturing = false →
      (device_switch_capturing dev true true).1 = 0 ∧
      (device_switch_capturing dev true true).2.run.capturing = true) ∧
    (dev.run.capturing = true →
      (device_switch_capturing dev false ok).1 = 0 ∧
      (device_switch_capturing dev false ok).2.run.capturing = false) := by
  refine ⟨?_, ?_, ?_, ?_⟩
  · intro he
    simp only [device_switch_capturing]
    rw [if_neg (by simp [he])]
  · intro hc
    simp only [device_switch_capturing]
    rw [if_pos (by simp [hc]), if_pos (by simp)]
  · intro hc
    simp only [device_switch_capturing]
    rw [if_pos (by simp [hc]), if_neg (by simp)]
    exact ⟨rfl, rfl⟩
  · intro hc
    simp only [device_switch_capturing]
    rw [if_pos (by simp [hc]), if_neg (by simp)]
    exact ⟨rfl, rfl⟩

/-- C7: `device_consume_event` returns an error exactly for a dequeued
source-change event; end-of-stream, any other dequeued event type, and a
dequeue failure all return success. -/
theorem consume_event_contract (e : Option Nat) :
    (device_consume_event e = -1 ↔ e = some V4L2_EVENT_SOURCE_CHANGE) ∧
    device_consume_event (some V4L2_EVENT_EOS) = 0 ∧
    device_consume_event none = 0 ∧
    (∀ t, t ≠ V4L2_EVENT_SOURCE_CHANGE → device_consume_event (some t) = 0) := by
  refine ⟨⟨?_, ?_⟩, by decide, rfl, ?_⟩
  · intro h
    match e with
    | none => simp [device_consume_event] at h
    | some t =>
      simp only [device_consume_event] at h
      split at h
      · rename_i ht; rw [ht]
      · simp at h
  · rintro rfl
    simp [device_consume_event]
  · intro t ht
    simp [device_consume_event, ht]

/-- C10: a rejected width/height pair leaves the previously negotiated
runtime resolution unchanged; the runtime fields are assigned only after
validation passes. -/
theorem apply_resolution_contract (maxW maxH : Nat) (dev : Device)
    (w h : Nat) :
    (resolution_forbidden maxW maxH w h = true →
      _device_apply_resolution maxW maxH dev w h = (-1, dev)) ∧
    (resolution_forbidden maxW maxH w h = false →
      (_device_apply_resolution maxW maxH dev w h).1 = 0 ∧
      (_device_apply_resolution maxW maxH dev w h).2.run.width = w ∧
      (_device_apply_resolution maxW maxH dev w h).2.run.height = h) := by
  constructor
  · intro hb
    simp [_device_apply_resolution, hb]
  · intro hb
    simp [_device_apply_resolution, hb]

/-- Witness for C1 at a concrete pool: a double-grab on slot 1 fails
without mutating state, and a grab on the free slot 0 returns index 0. -/
theorem grab_buffer_contract_at :
    device_grab_buffer devPool (some ⟨1, 77⟩) 9 = (-1, devPool) ∧
    (device_grab_buffer devPool (some ⟨0, 33⟩) 9).1 = Int.ofNat 0 := by
  constructor
  · exact (grab_buffer_contract devPool (some ⟨1, 77⟩) 9 (by decide)
      (by decide)).2.2.1 ⟨1, 77⟩ rfl (by decide) (by decide)
  · exact ((grab_buffer_contract devPool (some ⟨0, 33⟩) 9 (by decide)
      (by decide)).2.2.2 ⟨0, 33⟩ rfl (by decide) (by decide)).1

/-- Witness for C2 at a concrete pool. -/
theorem release_buffer_contract_at :
    device_release_buffer devPool 1 false = (-1, devPool) ∧
    (device_release_buffer devPool 1 true).1 = 0 := by
  constructor
  · exact (release_buffer_contract devPool 1 (by decide)).1
  · exact (release_buffer_contract devPool 1 (by decide)).2.1

/-- Witness for C6 at a concrete stopped device. -/
theorem switch_capturing_contract_at :
    device_switch_capturing devBase true false = (-1, devBase) ∧
    (device_switch_capturing devBase true true).2.run.capturing = true := by
  constructor
  · exact (switch_capturing_contract devBase true false).2.1 (by decide)
  · exact ((switch_capturing_contract devBase true true).2.2.1 (by decide)).2

/-- Witness for C7 at concrete events. -/
theorem consume_event_contract_at :
    device_consume_event (some V4L2_EVENT_SOURCE_CHANGE) = -1 ∧
    device_consume_event (some 7) = 0 := by
  constructor
  · exact (consume_event_contract (some V4L2_EVENT_SOURCE_CHANGE)).1.mpr rfl
  · exact (consume_event_contract (some 7)).2.2.2 7 (by decide)

/-- Witness for C10 at a concrete forbidden and a concrete valid pair. -/
theorem apply_resolution_contract_at :
    _device_apply_resolution 10000 10000 devBase 0 480 = (-1, devBase) ∧
    (_device_apply_resolution 10000 10000 devBase 640 480).2.run.width = 640 := by
  constructor
  · exact (apply_resolution_contract 10000 10000 devBase 0 480).1 (by decide)
  · exact ((apply_resolution_contract 10000 10000 devBase 640 480).2
      (by decide)).2.1

/-- For a nonzero step, `_device_set_control` is the range-and-divisibility
validation followed by the device write. -/
theorem set_control_eq (q : V4l2Queryctrl) (value : Int) (hstep : q.step ≠ 0) :
    _device_set_control q value =
      if q.minimum ≤ value ∧ value ≤ q.maximum ∧ q.step ∣ value
      then some (ControlAction.write value)
      else some ControlAction.skip := by
  unfold _device_set_control ctmod
  rw [if_neg hstep]
  by_cases h1 : value < q.minimum
  · rw [if_pos h1, if_neg (fun hc => absurd hc.1 (not_le.mpr h1))]
  · rw [if_neg h1]
    by_cases h2 : value > q.maximum
    · rw [if_pos h2, if_neg (fun hc => absurd hc.2.1 (not_le.mpr h2))]
    · rw [if_neg h2]
      dsimp only
      by_cases h3 : q.step ∣ value
      · rw [if_neg (not_not_intro (Int.tmod_eq_zero_of_dvd h3)),
            if_pos ⟨not_lt.mp h1, not_lt.mp h2, h3⟩]
      · rw [if_pos (fun h0 => h3 (Int.dvd_of_tmod_eq_zero h0)),
            if_neg (fun hc => h3 hc.2.2)]

/-- `_device_set_control` is undefined (reaches `value % 0`) exactly for an
in-range value with a zero step. -/
theorem set_control_none_iff (q : V4l2Queryctrl) (value : Int) :
    _device_set_control q value = none ↔
      q.minimum ≤ value ∧ value ≤ q.maximum ∧ q.step = 0 := by
  unfold _device_set_control ctmod
  by_cases h1 : value < q.minimum
  · rw [if_pos h1]
    simp only [reduceCtorEq, false_iff]
    omega
  · rw [if_neg h1]
    by_cases h2 : value > q.maximum
    · rw [if_pos h2]
      simp only [reduceCtorEq, false_iff]
      omega
    · rw [if_neg h2]
      by_cases h3 : q.step = 0
      · rw [if_pos h3]
        simp only [true_iff]
        omega
      · rw [if_neg h3]
        dsimp only
        split
        · simp only [reduceCtorEq, false_iff]
          omega
        · simp only [reduceCtorEq, false_iff]
          omega

/-- C4 counterexample: min=1, max=10, step=2 — the value 1, exactly the min
boundary and inside [min, max], is rejected (skipped, setter not invoked),
because 1 is not a multiple of step; this refutes "a value exactly on a
boundary (min, max, or min+step) is always accepted". -/
theorem set_control_min_boundary_rejected :
    _device_set_control ⟨1, 10, 2, 1⟩ 1 = some ControlAction.skip := by
  decide

/-- C4 (amended): for a nonzero step, the setter is invoked with the value
iff the value lies in [min, max] and is a multiple of step; otherwise the
value is skipped and the device is left unchanged; a boundary value (min,
max, min+step) is accepted whenever it is itself a multiple of step. -/
theorem set_control_contract (q : V4l2Queryctrl) (value : Int)
    (hstep : q.step ≠ 0) :
    (_device_set_control q value = some (ControlAction.write value) ↔
      q.minimum ≤ value ∧ value ≤ q.maximum ∧ q.step ∣ value) ∧
    (_device_set_control q value = some ControlAction.skip ↔
      ¬(q.minimum ≤ value ∧ value ≤ q.maximum ∧ q.step ∣ value)) ∧
    (q.step ∣ q.minimum → q.minimum ≤ q.maximum →
      _device_set_control q q.minimum = some (ControlAction.write q.minimum)) ∧
    (q.step ∣ q.maximum → q.minimum ≤ q.maximum →
      _device_set_control q q.maximum = some (ControlAction.write q.maximum)) ∧
    (q.step ∣ q.minimum → 0 ≤ q.step → q.minimum + q.step ≤ q.maximum →
      _device_set_control q (q.minimum + q.step)
        = some (ControlAction.write (q.minimum + q.step))) := by
  refine ⟨?_, ?_, ?_, ?_, ?_⟩
  · rw [set_control_eq q value hstep]
    split
    · rename_i hc
      simp [hc]
    · rename_i hc
      simp [hc]
  · rw [set_control_eq q value hstep]
    split
    · rename_i hc
      simp [hc]
    · rename_i hc
      simp [hc]
  · intro hd hle
    rw [set_control_eq q q.minimum hstep,
        if_pos ⟨le_refl _, hle, hd⟩]
  · intro hd hle
    rw [set_control_eq q q.maximum hstep,
        if_pos ⟨hle, le_refl _, hd⟩]
  · intro hd hpos hle
    rw [set_control_eq q (q.minimum + q.step) hstep,
        if_pos ⟨by omega, hle, Dvd.dvd.add hd (dvd_refl q.step)⟩]

/-- Witness for C4 (amended) at a concrete query descriptor. -/
theorem set_control_contract_at :
    _device_set_control ⟨0, 10, 2, 0⟩ 10 = some (ControlAction.write 10) ∧
    _device_set_control ⟨0, 10, 2, 0⟩ 7 = some ControlAction.skip := by
  constructor
  · exact ((set_control_contract ⟨0, 10, 2, 0⟩ 10 (by decide)).1).mpr (by decide)
  · exact ((set_control_contract ⟨0, 10, 2, 0⟩ 7 (by decide)).2.1).mpr (by decide)

/-- C9: the MANUAL validation computes `value % step` with the
device-reported step and never guards against a zero step: with `step = 0`
it is undefined exactly on in-range values; under the precondition
`step ≠ 0` it is total, and skipping (the error branch) is the only
alternative to invoking the device write. -/
theorem set_control_step_zero_contract (q : V4l2Queryctrl) (value : Int) :
    (_device_set_control q value = none ↔
      q.minimum ≤ value ∧ value ≤ q.maximum ∧ q.step = 0) ∧
    (q.step ≠ 0 → (_device_set_control q value).isSome = true) ∧
    (q.step ≠ 0 →
      _device_set_control q value = some ControlAction.skip ∨
      _device_set_control q value = some (ControlAction.write value)) := by
  refine ⟨set_control_none_iff q value, ?_, ?_⟩
  · intro hstep
    rw [set_control_eq q value hstep]
    split
    · rfl
    · rfl
  · intro hstep
    rw [set_control_eq q value hstep]
    split
    · right; rfl
    · left; rfl

/-- Witness for C9 at a concrete query descriptor: undefined with step 0,
total with step 2. -/
theorem set_control_step_zero_contract_at :
    _device_set_control ⟨0, 10, 0, 0⟩ 4 = none ∧
    (_device_set_control ⟨0, 10, 2, 0⟩ 4).isSome = true := by
  constructor
  · exact (set_control_step_zero_contract ⟨0, 10, 0, 0⟩ 4).1.mpr (by decide)
  · exact (set_control_step_zero_contract ⟨0, 10, 2, 0⟩ 4).2.1 (by decide)

/-- C3 counterexample: with a desired width of 0 — a resolution the
validation rejects — on the configured-resolution path (no DV timings), the
open sequence is not aborted: against an otherwise well-behaved kernel,
`device_open` succeeds, because `_device_open_dv_timings` discards the
result of the desired-resolution validation. -/
theorem desired_resolution_zero_open_succeeds :
    devZeroW.width = 0 ∧ (device_open 10000 10000 okOracle devZeroW).1 = 0 := by
  exact ⟨rfl, rfl⟩

/-- C3 (amended): a zero or over-ceiling resolution is rejected on every
derivation path, but only the timing-derived and driver-negotiated paths
abort the open sequence with an error; on the desired-resolution path the
validation failure is discarded (the runtime resolution is left unchanged
and the open sequence continues). -/
theorem resolution_validation_paths (maxW maxH : Nat) (o : Oracle)
    (dev : Device) :
    (dev.dv_timings = false →
      resolution_forbidden maxW maxH dev.width dev.height = true →
      _device_open_dv_timings maxW maxH o dev = (0, dev)) ∧
    (dev.dv_timings = true → o.query_dv_ok = true → o.s_dv_ok = true →
      resolution_forbidden maxW maxH o.dv_width o.dv_height = true →
      (device_open maxW maxH o dev).1 = -1) ∧
    (o.s_fmt_ok = true →
      resolution_forbidden maxW maxH o.fmt_width o.fmt_height = true →
      (device_open maxW maxH o dev).1 = -1) := by
  refine ⟨?_, ?_, ?_⟩
  · intro hdv hbad
    simp only [_device_open_dv_timings]
    have hr : _device_apply_resolution maxW maxH dev dev.width dev.height
        = (-1, dev) := by
      simp [_device_apply_resolution, hbad]
    rw [hr]
    rw [if_neg (by simp [hdv])]
  · intro hdv hq hs hbad
    apply open_fails_at_dv
    intro d hd
    exact dv_stage_fails maxW maxH o d (hd.trans hdv) hq hs hbad
  · intro hfmt hbad
    apply open_fails_at_format
    intro d _
    exact format_stage_fails_resolution maxW maxH o d hfmt hbad

/-- Witness for C3 (amended): a zero negotiated width aborts a concrete
open, and a zero desired width leaves a concrete DV-less stage untouched. -/
theorem resolution_validation_paths_at :
    (device_open 10000 10000 badFmtResOracle devBase).1 = -1 ∧
    _device_open_dv_timings 10000 10000 okOracle devZeroW = (0, devZeroW) := by
  constructor
  · exact (resolution_validation_paths 10000 10000 badFmtResOracle devBase).2.2
      (by decide) (by decide)
  · exact (resolution_validation_paths 10000 10000 okOracle devZeroW).1
      (by decide) (by decide)

/-- C5: when format negotiation grants a pixel format different from the
requested one, the open-format stage succeeds and records the granted
format in the runtime whenever the granted fourcc is in the recognized
format table; when the granted fourcc is unrecognized, the stage fails and
the whole `device_open` fails with the unsupported-format error. -/
theorem format_fallback_contract (maxW maxH : Nat) (o : Oracle) (dev : Device)
    (hfmt : o.s_fmt_ok = true)
    (hres : resolution_forbidden maxW maxH o.fmt_width o.fmt_height = false)
    (hdiff : o.fmt_pixelformat ≠ dev.format) :
    (_format_to_string_nullable o.fmt_pixelformat ≠ none →
      (_device_open_format maxW maxH o dev).1 = 0 ∧
      (_device_open_format maxW maxH o dev).2.run.format = o.fmt_pixelformat) ∧
    (_format_to_string_nullable o.fmt_pixelformat = none →
      (_device_open_format maxW maxH o dev).1 = -1 ∧
      (device_open maxW maxH o dev).1 = -1) := by
  have hr : _device_apply_resolution maxW maxH dev o.fmt_width o.fmt_height
      = (0, { dev with run :=
        { dev.run with width := o.fmt_width, height := o.fmt_height } }) := by
    simp [_device_apply_resolution, hres]
  constructor
  · intro hrec
    simp only [_device_open_format]
    rw [if_neg (by simp [hfmt]), hr, if_neg (by norm_num),
        if_neg (fun hc => hrec hc.2)]
    exact ⟨rfl, rfl⟩
  · intro hnone
    refine ⟨format_stage_fails_nullable maxW maxH o dev hdiff hnone, ?_⟩
    apply open_fails_at_format
    intro d hd
    exact format_stage_fails_nullable maxW maxH o d
      (fun he => hdiff (he.trans hd)) hnone

/-- Witness for C5: a concrete open-format stage granted MJPEG instead of
YUYV accepts and records it; a concrete unrecognized fourcc fails the
stage and the whole open. -/
theorem format_fallback_contract_at :
    ((_device_open_format 10000 10000 jpegOracle devBase).1 = 0 ∧
      (_device_open_format 10000 10000 jpegOracle devBase).2.run.format
        = V4L2_PIX_FMT_MJPEG) ∧
    ((_device_open_format 10000 10000 badFourccOracle devBase).1 = -1 ∧
      (device_open 10000 10000 badFourccOracle devBase).1 = -1) := by
  constructor
  · exact (format_fallback_contract 10000 10000 jpegOracle devBase
      (by decide) (by decide) (by decide)).1 (by decide)
  · exact (format_fallback_contract 10000 10000 badFourccOracle devBase
      (by decide) (by decide) (by decide)).2 (by decide)

/-- C8: a successful `device_open` has a granted buffer count G ≥ 1
recorded in the runtime, and the effective worker count equals
min(configured workers, G), hence is at most G; a zero-buffer grant makes
open fail. -/
theorem open_buffers_workers_contract (maxW maxH : Nat) (o : Oracle)
    (dev : Device) :
    ((device_open maxW maxH o dev).1 = 0 →
      1 ≤ o.reqbufs_count ∧
      (device_open maxW maxH o dev).2.run.n_buffers = o.reqbufs_count ∧
      (device_open maxW maxH o dev).2.run.n_workers
        = min dev.n_workers o.reqbufs_count ∧
      (device_open maxW maxH o dev).2.run.n_workers
        ≤ (device_open maxW maxH o dev).2.run.n_buffers) ∧
    (o.reqbufs_count = 0 → (device_open maxW maxH o dev).1 = -1) := by
  constructor
  · intro h
    obtain ⟨hge, hnb, hnw⟩ := device_open_success_shape maxW maxH o dev h
    refine ⟨hge, hnb, ?_, ?_⟩
    · rw [hnw, Nat.min_comm]
    · rw [hnw, hnb]
      exact Nat.min_le_left _ _
  · intro h0
    rcases device_open_result maxW maxH o dev with hr | hr
    · obtain ⟨hge, _, _⟩ := device_open_success_shape maxW maxH o dev hr
      omega
    · exact hr

/-- Witness for C8: a concrete open granted 2 buffers with 4 configured
workers ends with 2 effective workers. -/
theorem open_buffers_workers_contract_at :
    (device_open 10000 10000 okOracle devBase).2.run.n_buffers = 2 ∧
    (device_open 10000 10000 okOracle devBase).2.run.n_workers = 2 := by
  have h := (open_buffers_workers_contract 10000 10000 okOracle devBase).1 rfl
  exact ⟨h.2.1, h.2.2.1⟩
